import Mathlib

set_option linter.unusedVariables false

/-!
Shallow embedding of the `device_manager.device_discovery` module.

The Python module implements a `DeviceDiscovery` class with an orchestrator
`discover_device`, a basic-info fetcher `_get_basic_device_info`, three
capability probes (`_discover_via_swagger`, `_discover_via_parameters`,
`_discover_via_probing`, the last two being stubs returning `{}`), a swagger
document parser `_parse_swagger_capabilities`, and a stub fallback fetcher
`_get_device_info_fallback`.

Modelling conventions:
* JSON values (the results of `response.json()`) are the inductive `Json`;
  Python dicts appearing in the module are association lists in insertion
  order (`PyDict`), with `dictSet`, `dictUpdate`, `dictLookup` mirroring
  Python dict assignment, `dict.update`, and key lookup.
* Python operations that can raise (`x[k]`, `.items()`, `.get`, `in`) are
  `Except PyErr _` computations with the exact Python success/raise cases.
* The network is an oracle `Env.http url username password timeout`,
  returning either a response (status plus the result of parsing the body as
  JSON) or a raised error (connection failure / timeout).  Each function that
  performs HTTP requests also returns the list of URLs it requested, so that
  "performs zero HTTP calls" is expressible.
* `try/except` blocks are modelled by matching on the `Except` result of the
  protected computation.
-/

/-- JSON values, as returned by `response.json()`. -/
inductive Json where
  | null : Json
  | bool : Bool → Json
  | num : Int → Json
  | str : String → Json
  | arr : List Json → Json
  | obj : List (String × Json) → Json

/-- Python exceptions that the module can raise internally. -/
inductive PyErr where
  | keyError : String → PyErr
  | typeError : PyErr
  | attributeError : PyErr
  | netError : String → PyErr
  | other : String → PyErr
deriving DecidableEq

/-- A Python dict with JSON-compatible values, in insertion order. -/
abbrev PyDict := List (String × Json)

/-- Python substring test on character lists: does `needle` start `hay`? -/
def strStartsWith : List Char → List Char → Bool
  | [], _ => true
  | _ :: _, [] => false
  | c :: cs, d :: ds => c == d && strStartsWith cs ds

/-- Does `needle` occur anywhere in `hay` (as a contiguous run)? -/
def charsContain (needle : List Char) : List Char → Bool
  | [] => needle.isEmpty
  | c :: cs => strStartsWith needle (c :: cs) || charsContain needle cs

/-- Python `needle in hay` for strings: contiguous substring test. -/
def strContains (hay needle : String) : Bool :=
  charsContain needle.data hay.data

/-- Python dict key lookup on an insertion-ordered association list. -/
def dictLookup : PyDict → String → Option Json
  | [], _ => none
  | (k', v) :: rest, k => if k' == k then some v else dictLookup rest k

/-- Python `d[k] = v`: replace the value of an existing key in place,
otherwise append the new binding at the end. -/
def dictSet : PyDict → String → Json → PyDict
  | [], k, v => [(k, v)]
  | (k', v') :: rest, k, v =>
      if k' == k then (k', v) :: rest else (k', v') :: dictSet rest k v

/-- Python `d.update(e)`: assign every binding of `e`, in order, into `d`. -/
def dictUpdate (d : PyDict) : PyDict → PyDict
  | [] => d
  | (k, v) :: rest => dictUpdate (dictSet d k v) rest

/-- The keys of a dict are pairwise distinct (every real Python dict). -/
def nodupKeys (d : PyDict) : Prop := (d.map Prod.fst).Nodup

instance (d : PyDict) : Decidable (nodupKeys d) := by
  unfold nodupKeys; infer_instance

/-- Is this JSON value a mapping (a Python dict)? -/
def Json.isObj : Json → Bool
  | .obj _ => true
  | _ => false

/-- Python `k in j`: key membership for dicts, element equality for lists
(a string compares unequal to every non-string), substring test for strings;
raises `TypeError` on the remaining JSON values. -/
def pyContains (j : Json) (k : String) : Except PyErr Bool :=
  match j with
  | .obj kvs => .ok (kvs.any (fun kv => kv.1 == k))
  | .arr xs => .ok (xs.any (fun x => match x with | .str s => s == k | _ => false))
  | .str s => .ok (strContains s k)
  | _ => .error .typeError

/-- Python `j[k]` with a string subscript: dict lookup (raising `KeyError`
when the key is absent); every other JSON value raises `TypeError`. -/
def pyGetItem (j : Json) (k : String) : Except PyErr Json :=
  match j with
  | .obj kvs =>
      match dictLookup kvs k with
      | some v => .ok v
      | none => .error (.keyError k)
  | _ => .error .typeError

/-- Python `j.items()`: the bindings of a dict in insertion order; every
other JSON value raises `AttributeError` (it has no `items` method). -/
def pyItems (j : Json) : Except PyErr (List (String × Json)) :=
  match j with
  | .obj kvs => .ok kvs
  | _ => .error .attributeError

/-- Python `j.get k default`: defaulting dict lookup; every other JSON
value raises `AttributeError` (it has no `get` method). -/
def pyGet (j : Json) (k : String) (default : Json) : Except PyErr Json :=
  match j with
  | .obj kvs => .ok ((dictLookup kvs k).getD default)
  | _ => .error .attributeError

/-- An HTTP response: status code, and the result of parsing the body as
JSON (`.error` when the body is not valid JSON and `response.json()` raises). -/
structure HttpResponse where
  status : Nat
  body : Except PyErr Json

/-- The username/password pair returned by the credentials manager. -/
structure Credentials where
  username : String
  password : String

/-- The ambient world: an HTTP oracle (url, basic-auth username, password,
timeout in seconds) and the wall-clock reading used for `last_updated`. -/
structure Env where
  http : String → String → String → Nat → Except PyErr HttpResponse
  now : String

/-- The `DeviceInfo` dataclass.  Python does not enforce the `str`
annotations on `model`, `firmware_version` and `hardware_id`, so those
fields hold whatever JSON value `device_info.get` produced. -/
structure DeviceInfo where
  ip_address : String
  model : Json
  firmware_version : Json
  hardware_id : Json
  capabilities : PyDict
  last_updated : String

/-- The `DeviceDiscovery` class: the injected credentials manager (modelled
by its `get_credentials` method) and the `discovered_devices` map. -/
structure DeviceDiscovery where
  credentials_manager : String → Except PyErr Credentials
  discovered_devices : List (String × DeviceInfo)

/-- Method `DeviceDiscovery.__init__`: store the manager, set `discovered_devices`
to the empty dict. -/
def DeviceDiscovery.init (cm : String → Except PyErr Credentials) : DeviceDiscovery :=
  { credentials_manager := cm, discovered_devices := [] }

/-- URL of the basic device info CGI for a given address. -/
def basicdeviceinfoUrl (ip_address : String) : String :=
  "http://" ++ ip_address ++ "/axis-cgi/basicdeviceinfo.cgi"

/-- URL of the OpenAPI document for a given address. -/
def openapiUrl (ip_address : String) : String :=
  "http://" ++ ip_address ++ "/axis-cgi/openapi.json"

/-- One iteration of the `paths` loop of `_parse_swagger_capabilities`:
the three keyword checks on one path string, in source order. -/
def scanPathStep (capabilities : PyDict) (path : String) : PyDict :=
  let c1 := if strContains path "analytics"
            then dictSet capabilities "analytics_api" (Json.bool true) else capabilities
  let c2 := if strContains path "motion"
            then dictSet c1 "motion_detection" (Json.bool true) else c1
  if strContains path "audio" then dictSet c2 "audio_api" (Json.bool true) else c2

/-- The `paths` loop of `_parse_swagger_capabilities` over all bindings. -/
def scanPaths (capabilities : PyDict) : List (String × Json) → PyDict
  | [] => capabilities
  | (path, _) :: rest => scanPaths (scanPathStep capabilities path) rest

/-- The `components.schemas` loop of `_parse_swagger_capabilities`. -/
def scanSchemas (capabilities : PyDict) : List (String × Json) → PyDict
  | [] => capabilities
  | (schema_name, _) :: rest =>
      scanSchemas
        (if strContains schema_name.toLower "analytics"
         then dictSet capabilities "analytics_schemas" (Json.bool true)
         else capabilities)
        rest

/-- The first half of `_parse_swagger_capabilities`: `capabilities = {}`,
then `if 'paths' in openapi_spec:` iterate `openapi_spec['paths'].items()`
applying the three keyword checks.  `.error` is a raised Python exception. -/
def parsePathsSection (openapi_spec : Json) : Except PyErr PyDict :=
  match pyContains openapi_spec "paths" with
  | .error e => .error e
  | .ok hasPaths =>
    if hasPaths then
      match pyGetItem openapi_spec "paths" with
      | .error e => .error e
      | .ok pathsTable =>
        match pyItems pathsTable with
        | .error e => .error e
        | .ok items => .ok (scanPaths [] items)
    else .ok []

/-- The second half of `_parse_swagger_capabilities`:
`if 'components' in openapi_spec and 'schemas' in openapi_spec['components']:`
(left-to-right with short-circuit), then iterate the schema names. -/
def parseSchemasSection (openapi_spec : Json) (capabilities : PyDict) :
    Except PyErr PyDict :=
  match pyContains openapi_spec "components" with
  | .error e => .error e
  | .ok hasComponents =>
    if hasComponents then
      match pyGetItem openapi_spec "components" with
      | .error e => .error e
      | .ok components =>
        match pyContains components "schemas" with
        | .error e => .error e
        | .ok hasSchemas =>
          if hasSchemas then
            match pyGetItem components "schemas" with
            | .error e => .error e
            | .ok schemasTable =>
              match pyItems schemasTable with
              | .error e => .error e
              | .ok items => .ok (scanSchemas capabilities items)
          else .ok capabilities
    else .ok capabilities

/-- Method `DeviceDiscovery._parse_swagger_capabilities`: scan the `paths` table and
the `components.schemas` table of an OpenAPI-style document for capability
keywords.  Any Python exception raised by the subscripts, membership tests or
`.items()` calls propagates to the caller (it is caught in
`_discover_via_swagger`). -/
def DeviceDiscovery._parse_swagger_capabilities (self : DeviceDiscovery)
    (openapi_spec : Json) : Except PyErr PyDict :=
  match parsePathsSection openapi_spec with
  | .error e => .error e
  | .ok capabilities => parseSchemasSection openapi_spec capabilities

/-- Method `DeviceDiscovery._get_device_info_fallback`: unimplemented stub, returns
the empty dict and performs no HTTP call. -/
def DeviceDiscovery._get_device_info_fallback (self : DeviceDiscovery)
    (env : Env) (ip_address : String) (credentials : Credentials) :
    List String × Json :=
  ([], Json.obj [])

/-- Method `DeviceDiscovery._get_basic_device_info`: GET the basic device info CGI
with basic auth and a 10 second timeout; on HTTP 200 return the parsed JSON
body, on any other status delegate to the fallback fetcher, and on any raised
exception (connection error, timeout, JSON parse failure) catch it and return
the empty dict.  The first component lists the URLs requested. -/
def DeviceDiscovery._get_basic_device_info (self : DeviceDiscovery)
    (env : Env) (ip_address : String) (credentials : Credentials) :
    List String × Json :=
  let url := basicdeviceinfoUrl ip_address
  match env.http url credentials.username credentials.password 10 with
  | .error _ => ([url], Json.obj [])
  | .ok response =>
    if response.status == 200 then
      match response.body with
      | .ok j => ([url], j)
      | .error _ => ([url], Json.obj [])
    else
      let fb := self._get_device_info_fallback env ip_address credentials
      (url :: fb.1, fb.2)

/-- Method `DeviceDiscovery._discover_via_swagger`: GET the OpenAPI document with
basic auth and a 10 second timeout; on HTTP 200 parse it with
`_parse_swagger_capabilities`; on any other status, or on any raised
exception (network, JSON parse, malformed document), return the empty dict. -/
def DeviceDiscovery._discover_via_swagger (self : DeviceDiscovery)
    (env : Env) (ip_address : String) (credentials : Credentials) :
    List String × PyDict :=
  let url := openapiUrl ip_address
  match env.http url credentials.username credentials.password 10 with
  | .error _ => ([url], [])
  | .ok response =>
    if response.status == 200 then
      match response.body with
      | .error _ => ([url], [])
      | .ok openapi_spec =>
        match self._parse_swagger_capabilities openapi_spec with
        | .ok capabilities => ([url], capabilities)
        | .error _ => ([url], [])
    else ([url], [])

/-- Method `DeviceDiscovery._discover_via_parameters`: unimplemented stub, returns
the empty dict and performs no HTTP call. -/
def DeviceDiscovery._discover_via_parameters (self : DeviceDiscovery)
    (env : Env) (ip_address : String) (credentials : Credentials) :
    List String × PyDict :=
  ([], [])

/-- Method `DeviceDiscovery._discover_via_probing`: unimplemented stub, returns the
empty dict and performs no HTTP call. -/
def DeviceDiscovery._discover_via_probing (self : DeviceDiscovery)
    (env : Env) (ip_address : String) (credentials : Credentials) :
    List String × PyDict :=
  ([], [])

/-- Method `DeviceDiscovery._discover_capabilities`: start from the empty dict and
`dict.update` in the swagger, parameter, and probing results in that order. -/
def DeviceDiscovery._discover_capabilities (self : DeviceDiscovery)
    (env : Env) (ip_address : String) (credentials : Credentials) :
    List String × PyDict :=
  let capabilities : PyDict := []
  let sw := self._discover_via_swagger env ip_address credentials
  let capabilities := dictUpdate capabilities sw.2
  let pm := self._discover_via_parameters env ip_address credentials
  let capabilities := dictUpdate capabilities pm.2
  let pr := self._discover_via_probing env ip_address credentials
  let capabilities := dictUpdate capabilities pr.2
  (sw.1 ++ pm.1 ++ pr.1, capabilities)

/-- The body of the `try` block of `DeviceDiscovery.discover_device`:
credentials lookup, basic-info fetch, capability discovery, and `DeviceInfo`
assembly (whose `device_info.get` calls raise `AttributeError` when
`device_info` is not a dict).  `.error` is a raised exception reaching the
orchestrator's `except` clause. -/
def DeviceDiscovery.discover_device_body (self : DeviceDiscovery)
    (env : Env) (ip_address : String) :
    List String × Except PyErr DeviceInfo :=
  match self.credentials_manager ip_address with
  | .error e => ([], .error e)
  | .ok credentials =>
    let bi := self._get_basic_device_info env ip_address credentials
    let device_info := bi.2
    let caps := self._discover_capabilities env ip_address credentials
    let capabilities := caps.2
    let result : Except PyErr DeviceInfo :=
      match pyGet device_info "model" (Json.str "Unknown") with
      | .error e => .error e
      | .ok m =>
        match pyGet device_info "firmware_version" (Json.str "Unknown") with
        | .error e => .error e
        | .ok f =>
          match pyGet device_info "hardware_id" (Json.str "Unknown") with
          | .error e => .error e
          | .ok h =>
            .ok { ip_address := ip_address, model := m, firmware_version := f,
                  hardware_id := h, capabilities := capabilities,
                  last_updated := env.now }
    (bi.1 ++ caps.1, result)

/-- Method `DeviceDiscovery.discover_device`: run the body; any raised exception is
caught at this boundary and converted to `none`.  The method never assigns to
any attribute of `self`, so the post-state is returned unchanged.  Result:
(post-state, URLs requested, outcome). -/
def DeviceDiscovery.discover_device (self : DeviceDiscovery)
    (env : Env) (ip_address : String) :
    DeviceDiscovery × List String × Option DeviceInfo :=
  match self.discover_device_body env ip_address with
  | (t, .ok r) => (self, t, some r)
  | (t, .error _) => (self, t, none)

/-- A sequence of `discover_device` calls threading the object state. -/
def runCalls (env : Env) (st : DeviceDiscovery) : List String → DeviceDiscovery
  | [] => st
  | ip :: rest => runCalls env (st.discover_device env ip).1 rest

/-- The merge performed by `_discover_capabilities` on the three strategy
results: `{}` updated with the swagger map, then the parameter map, then the
probe map. -/
def capMerge (sw pm pr : PyDict) : PyDict :=
  dictUpdate (dictUpdate (dictUpdate [] sw) pm) pr

/-- First-some choice on optional lookup results: the overriding map's
binding wins when present. -/
def override (a b : Option Json) : Option Json :=
  match a with
  | some v => some v
  | none => b

/-! ### Lemmas about Python dict operations -/

theorem dictLookup_dictSet_self (d : PyDict) (k : String) (v : Json) :
    dictLookup (dictSet d k v) k = some v := by
  induction d with
  | nil => simp [dictSet, dictLookup]
  | cons kv rest ih =>
    obtain ⟨k', v'⟩ := kv
    by_cases h : k' = k
    · subst h; simp [dictSet, dictLookup]
    · simp [dictSet, dictLookup, h, ih]

theorem dictLookup_dictSet_ne (d : PyDict) (k k2 : String) (v : Json)
    (h : k2 ≠ k) : dictLookup (dictSet d k v) k2 = dictLookup d k2 := by
  induction d with
  | nil => simp [dictSet, dictLookup, Ne.symm h]
  | cons kv rest ih =>
    obtain ⟨k', v'⟩ := kv
    by_cases hk : k' = k
    · subst hk
      have h2 : ¬ k' = k2 := Ne.symm h
      simp [dictSet, dictLookup, h2]
    · simp only [dictSet, dictLookup, beq_iff_eq, hk, if_false]
      by_cases h2 : k' = k2
      · simp [h2]
      · simp [h2, ih]

theorem dictLookup_eq_none_of_not_mem (d : PyDict) (k : String)
    (h : k ∉ d.map Prod.fst) : dictLookup d k = none := by
  induction d with
  | nil => simp [dictLookup]
  | cons kv rest ih =>
    obtain ⟨k', v'⟩ := kv
    simp only [List.map_cons, List.mem_cons, not_or] at h
    simp [dictLookup, Ne.symm h.1, ih h.2]

theorem dictUpdate_dictLookup (e : PyDict) (h : nodupKeys e) :
    ∀ (d : PyDict) (k : String),
      dictLookup (dictUpdate d e) k = override (dictLookup e k) (dictLookup d k) := by
  induction e with
  | nil => intro d k; simp [dictUpdate, dictLookup, override]
  | cons kv rest ih =>
    obtain ⟨k', v'⟩ := kv
    intro d k
    simp only [nodupKeys, List.map_cons, List.nodup_cons] at h
    have hrest : nodupKeys rest := h.2
    by_cases hk : k = k'
    · subst hk
      rw [dictUpdate, ih hrest]
      rw [dictLookup_eq_none_of_not_mem rest k h.1]
      simp [override, dictLookup, dictLookup_dictSet_self]
    · rw [dictUpdate, ih hrest]
      rw [dictLookup_dictSet_ne d k' k v' hk]
      simp [dictLookup, Ne.symm hk]

theorem dictUpdate_dictLookup_none (e : PyDict) :
    ∀ (d : PyDict) (k : String), dictLookup e k = none →
      dictLookup (dictUpdate d e) k = dictLookup d k := by
  induction e with
  | nil => intro d k _; rfl
  | cons kv rest ih =>
    obtain ⟨k', v'⟩ := kv
    intro d k hnone
    rw [dictLookup] at hnone
    by_cases hk : k' = k
    · simp [hk] at hnone
    · simp only [beq_iff_eq, hk, if_false] at hnone
      rw [dictUpdate, ih _ _ hnone, dictLookup_dictSet_ne d k' k v' (Ne.symm hk)]

theorem dictSet_eq_append_of_not_mem (d : PyDict) (k : String) (v : Json)
    (h : k ∉ d.map Prod.fst) : dictSet d k v = d ++ [(k, v)] := by
  induction d with
  | nil => simp [dictSet]
  | cons kv rest ih =>
    obtain ⟨k', v'⟩ := kv
    simp only [List.map_cons, List.mem_cons, not_or] at h
    simp [dictSet, Ne.symm h.1, ih h.2]

theorem dictUpdate_eq_append (e : PyDict) (h : nodupKeys e) :
    ∀ (d : PyDict), (∀ k ∈ e.map Prod.fst, k ∉ d.map Prod.fst) →
      dictUpdate d e = d ++ e := by
  induction e with
  | nil => intro d _; simp [dictUpdate]
  | cons kv rest ih =>
    obtain ⟨k', v'⟩ := kv
    intro d hdisj
    simp only [nodupKeys, List.map_cons, List.nodup_cons] at h
    rw [dictUpdate,
        dictSet_eq_append_of_not_mem d k' v' (hdisj k' (by simp)),
        ih h.2]
    · simp
    · intro k hk
      simp only [List.map_append, List.mem_append, List.map_cons, List.map_nil,
        List.mem_singleton, not_or]
      exact ⟨hdisj k (by simp [hk]), fun hh => h.1 (hh ▸ hk)⟩

theorem dictUpdate_nil_left (e : PyDict) (h : nodupKeys e) :
    dictUpdate [] e = e := by
  rw [dictUpdate_eq_append e h [] (by simp)]
  simp

theorem mem_keys_dictSet (d : PyDict) (k k2 : String) (v : Json)
    (h : k2 ∈ (dictSet d k v).map Prod.fst) :
    k2 ∈ d.map Prod.fst ∨ k2 = k := by
  induction d with
  | nil => simpa [dictSet] using h
  | cons kv rest ih =>
    obtain ⟨k', v'⟩ := kv
    by_cases hk : k' = k
    · subst hk
      simp only [dictSet, beq_self_eq_true, if_true, List.map_cons, List.mem_cons] at h
      rcases h with h | h
      · exact Or.inr h
      · exact Or.inl (by simp [h])
    · simp only [dictSet, beq_iff_eq, hk, if_false, List.map_cons, List.mem_cons] at h ⊢
      rcases h with h | h
      · exact Or.inl (Or.inl h)
      · rcases ih h with h2 | h2
        · exact Or.inl (Or.inr h2)
        · exact Or.inr h2

theorem nodupKeys_dictSet (d : PyDict) (k : String) (v : Json)
    (h : nodupKeys d) : nodupKeys (dictSet d k v) := by
  induction d with
  | nil => simp [dictSet, nodupKeys]
  | cons kv rest ih =>
    obtain ⟨k', v'⟩ := kv
    simp only [nodupKeys, List.map_cons, List.nodup_cons] at h
    by_cases hk : k' = k
    · subst hk
      simpa [dictSet, nodupKeys] using h
    · simp only [dictSet, beq_iff_eq, hk, if_false, nodupKeys, List.map_cons,
        List.nodup_cons]
      refine ⟨fun hmem => ?_, ih h.2⟩
      rcases mem_keys_dictSet rest k k' v hmem with h2 | h2
      · exact h.1 h2
      · exact hk h2

/-! ### Lemmas about the swagger scan loops -/

theorem scanPathStep_lookup_analytics (caps : PyDict) (p : String) :
    dictLookup (scanPathStep caps p) "analytics_api" =
      if strContains p "analytics" then some (Json.bool true)
      else dictLookup caps "analytics_api" := by
  have hau : ("analytics_api" : String) ≠ "audio_api" := by decide
  have hmo : ("analytics_api" : String) ≠ "motion_detection" := by decide
  unfold scanPathStep
  by_cases h3 : strContains p "audio" <;>
    by_cases h2 : strContains p "motion" <;>
      by_cases h1 : strContains p "analytics" <;>
        simp [h1, h2, h3, dictLookup_dictSet_self, dictLookup_dictSet_ne, hau, hmo]

theorem scanPathStep_lookup_motion (caps : PyDict) (p : String) :
    dictLookup (scanPathStep caps p) "motion_detection" =
      if strContains p "motion" then some (Json.bool true)
      else dictLookup caps "motion_detection" := by
  have hau : ("motion_detection" : String) ≠ "audio_api" := by decide
  have han : ("motion_detection" : String) ≠ "analytics_api" := by decide
  unfold scanPathStep
  by_cases h3 : strContains p "audio" <;>
    by_cases h2 : strContains p "motion" <;>
      by_cases h1 : strContains p "analytics" <;>
        simp [h1, h2, h3, dictLookup_dictSet_self, dictLookup_dictSet_ne, hau, han]

theorem scanPathStep_lookup_audio (caps : PyDict) (p : String) :
    dictLookup (scanPathStep caps p) "audio_api" =
      if strContains p "audio" then some (Json.bool true)
      else dictLookup caps "audio_api" := by
  have hmo : ("audio_api" : String) ≠ "motion_detection" := by decide
  have han : ("audio_api" : String) ≠ "analytics_api" := by decide
  unfold scanPathStep
  by_cases h3 : strContains p "audio" <;>
    by_cases h2 : strContains p "motion" <;>
      by_cases h1 : strContains p "analytics" <;>
        simp [h1, h2, h3, dictLookup_dictSet_self, dictLookup_dictSet_ne, hmo, han]

theorem scanPathStep_lookup_other (caps : PyDict) (p : String) (k : String)
    (h1 : k ≠ "analytics_api") (h2 : k ≠ "motion_detection") (h3 : k ≠ "audio_api") :
    dictLookup (scanPathStep caps p) k = dictLookup caps k := by
  unfold scanPathStep
  by_cases c3 : strContains p "audio" <;>
    by_cases c2 : strContains p "motion" <;>
      by_cases c1 : strContains p "analytics" <;>
        simp [c1, c2, c3, dictLookup_dictSet_ne, h1, h2, h3]

theorem scanPaths_lookup_analytics (l : List (String × Json)) :
    ∀ caps : PyDict, dictLookup (scanPaths caps l) "analytics_api" =
      if l.any (fun pv => strContains pv.1 "analytics") then some (Json.bool true)
      else dictLookup caps "analytics_api" := by
  induction l with
  | nil => intro caps; simp [scanPaths]
  | cons pv rest ih =>
    obtain ⟨p, j⟩ := pv
    intro caps
    rw [scanPaths, ih, scanPathStep_lookup_analytics]
    by_cases hrest : rest.any (fun pv => strContains pv.1 "analytics") <;>
      by_cases hp : strContains p "analytics" <;>
        simp [hrest, hp, List.any_cons]

theorem scanPaths_lookup_motion (l : List (String × Json)) :
    ∀ caps : PyDict, dictLookup (scanPaths caps l) "motion_detection" =
      if l.any (fun pv => strContains pv.1 "motion") then some (Json.bool true)
      else dictLookup caps "motion_detection" := by
  induction l with
  | nil => intro caps; simp [scanPaths]
  | cons pv rest ih =>
    obtain ⟨p, j⟩ := pv
    intro caps
    rw [scanPaths, ih, scanPathStep_lookup_motion]
    by_cases hrest : rest.any (fun pv => strContains pv.1 "motion") <;>
      by_cases hp : strContains p "motion" <;>
        simp [hrest, hp, List.any_cons]

theorem scanPaths_lookup_audio (l : List (String × Json)) :
    ∀ caps : PyDict, dictLookup (scanPaths caps l) "audio_api" =
      if l.any (fun pv => strContains pv.1 "audio") then some (Json.bool true)
      else dictLookup caps "audio_api" := by
  induction l with
  | nil => intro caps; simp [scanPaths]
  | cons pv rest ih =>
    obtain ⟨p, j⟩ := pv
    intro caps
    rw [scanPaths, ih, scanPathStep_lookup_audio]
    by_cases hrest : rest.any (fun pv => strContains pv.1 "audio") <;>
      by_cases hp : strContains p "audio" <;>
        simp [hrest, hp, List.any_cons]

theorem scanPaths_lookup_other (l : List (String × Json)) (k : String)
    (h1 : k ≠ "analytics_api") (h2 : k ≠ "motion_detection") (h3 : k ≠ "audio_api") :
    ∀ caps : PyDict, dictLookup (scanPaths caps l) k = dictLookup caps k := by
  induction l with
  | nil => intro caps; simp [scanPaths]
  | cons pv rest ih =>
    obtain ⟨p, j⟩ := pv
    intro caps
    rw [scanPaths, ih, scanPathStep_lookup_other caps p k h1 h2 h3]

theorem scanSchemas_lookup_analytics (l : List (String × Json)) :
    ∀ caps : PyDict, dictLookup (scanSchemas caps l) "analytics_schemas" =
      if l.any (fun sv => strContains sv.1.toLower "analytics") then some (Json.bool true)
      else dictLookup caps "analytics_schemas" := by
  induction l with
  | nil => intro caps; simp [scanSchemas]
  | cons sv rest ih =>
    obtain ⟨nm, j⟩ := sv
    intro caps
    rw [scanSchemas, ih]
    by_cases hrest : rest.any (fun sv => strContains sv.1.toLower "analytics") <;>
      by_cases hn : strContains nm.toLower "analytics" <;>
        simp [hrest, hn, List.any_cons, dictLookup_dictSet_self]

theorem scanSchemas_lookup_other (l : List (String × Json)) (k : String)
    (h : k ≠ "analytics_schemas") :
    ∀ caps : PyDict, dictLookup (scanSchemas caps l) k = dictLookup caps k := by
  induction l with
  | nil => intro caps; simp [scanSchemas]
  | cons sv rest ih =>
    obtain ⟨nm, j⟩ := sv
    intro caps
    rw [scanSchemas, ih]
    by_cases hn : strContains nm.toLower "analytics" <;>
      simp [hn, dictLookup_dictSet_ne, h]

theorem scanPathStep_nodupKeys (caps : PyDict) (p : String)
    (h : nodupKeys caps) : nodupKeys (scanPathStep caps p) := by
  unfold scanPathStep
  by_cases h3 : strContains p "audio" <;>
    by_cases h2 : strContains p "motion" <;>
      by_cases h1 : strContains p "analytics" <;>
        (simp only [h1, h2, h3, if_true, if_false, Bool.false_eq_true]
         repeat' apply nodupKeys_dictSet
         exact h)

theorem scanPaths_nodupKeys (l : List (String × Json)) :
    ∀ caps : PyDict, nodupKeys caps → nodupKeys (scanPaths caps l) := by
  induction l with
  | nil => intro caps h; simpa [scanPaths] using h
  | cons pv rest ih =>
    obtain ⟨p, j⟩ := pv
    intro caps h
    exact ih _ (scanPathStep_nodupKeys caps p h)

theorem scanSchemas_nodupKeys (l : List (String × Json)) :
    ∀ caps : PyDict, nodupKeys caps → nodupKeys (scanSchemas caps l) := by
  induction l with
  | nil => intro caps h; simpa [scanSchemas] using h
  | cons sv rest ih =>
    obtain ⟨nm, j⟩ := sv
    intro caps h
    by_cases hn : strContains nm.toLower "analytics" <;>
      · rw [scanSchemas]
        split <;> exact ih _ (by first | exact nodupKeys_dictSet _ _ _ h | exact h)

/-! ### Lemmas about the swagger parser -/

theorem any_key_beq_eq_isSome (kvs : PyDict) (k : String) :
    (kvs.any (fun kv => kv.1 == k)) = (dictLookup kvs k).isSome := by
  induction kvs with
  | nil => simp [dictLookup]
  | cons kv rest ih =>
    obtain ⟨k', v'⟩ := kv
    by_cases h : k' = k <;> simp [dictLookup, h, ih]

theorem parsePathsSection_nodupKeys (spec : Json) (caps : PyDict)
    (h : parsePathsSection spec = .ok caps) : nodupKeys caps := by
  unfold parsePathsSection at h
  repeat' split at h
  all_goals cases h
  · exact scanPaths_nodupKeys _ _ (by simp [nodupKeys])
  · simp [nodupKeys]

theorem parseSchemasSection_nodupKeys (spec : Json) (caps0 caps : PyDict)
    (h0 : nodupKeys caps0) (h : parseSchemasSection spec caps0 = .ok caps) :
    nodupKeys caps := by
  unfold parseSchemasSection at h
  repeat' split at h
  all_goals cases h
  · exact scanSchemas_nodupKeys _ _ h0
  · exact h0
  · exact h0

theorem parse_swagger_nodupKeys (self : DeviceDiscovery) (spec : Json)
    (caps : PyDict) (h : self._parse_swagger_capabilities spec = .ok caps) :
    nodupKeys caps := by
  unfold DeviceDiscovery._parse_swagger_capabilities at h
  split at h
  · cases h
  · rename_i caps0 heq
    exact parseSchemasSection_nodupKeys _ _ _ (parsePathsSection_nodupKeys _ _ heq) h

theorem discover_via_swagger_nodupKeys (self : DeviceDiscovery) (env : Env)
    (ip_address : String) (credentials : Credentials) :
    nodupKeys (self._discover_via_swagger env ip_address credentials).2 := by
  simp only [DeviceDiscovery._discover_via_swagger]
  repeat' split
  all_goals
    first
      | (rename_i heq; simpa using parse_swagger_nodupKeys _ _ _ heq)
      | (rename_i caps heq; simpa using parse_swagger_nodupKeys _ _ _ heq)
      | simp [nodupKeys]

theorem parsePathsSection_obj_some (kvs pathsKvs : PyDict)
    (h : dictLookup kvs "paths" = some (Json.obj pathsKvs)) :
    parsePathsSection (Json.obj kvs) = .ok (scanPaths [] pathsKvs) := by
  unfold parsePathsSection
  simp [pyContains, pyGetItem, pyItems, any_key_beq_eq_isSome, h]

theorem parsePathsSection_obj_none (kvs : PyDict)
    (h : dictLookup kvs "paths" = none) :
    parsePathsSection (Json.obj kvs) = .ok [] := by
  unfold parsePathsSection
  simp [pyContains, any_key_beq_eq_isSome, h]

theorem parseSchemasSection_obj_some (kvs ckvs schemaKvs : PyDict)
    (caps : PyDict)
    (hc : dictLookup kvs "components" = some (Json.obj ckvs))
    (hs : dictLookup ckvs "schemas" = some (Json.obj schemaKvs)) :
    parseSchemasSection (Json.obj kvs) caps = .ok (scanSchemas caps schemaKvs) := by
  unfold parseSchemasSection
  simp [pyContains, pyGetItem, pyItems, any_key_beq_eq_isSome, hc, hs]

theorem parseSchemasSection_obj_none_schemas (kvs ckvs : PyDict)
    (caps : PyDict)
    (hc : dictLookup kvs "components" = some (Json.obj ckvs))
    (hs : dictLookup ckvs "schemas" = none) :
    parseSchemasSection (Json.obj kvs) caps = .ok caps := by
  unfold parseSchemasSection
  simp [pyContains, pyGetItem, pyItems, any_key_beq_eq_isSome, hc, hs]

theorem parseSchemasSection_obj_none (kvs : PyDict) (caps : PyDict)
    (hc : dictLookup kvs "components" = none) :
    parseSchemasSection (Json.obj kvs) caps = .ok caps := by
  unfold parseSchemasSection
  simp [pyContains, any_key_beq_eq_isSome, hc]

/-! ### Helper facts about the orchestrator -/

theorem dictUpdate_nil_right (d : PyDict) : dictUpdate d [] = d := rfl

theorem override_none_right (a : Option Json) : override a none = a := by
  cases a <;> rfl

/-- A successful run of the `try` body: the credentials lookup succeeded and
the record's `capabilities` field is exactly the merged capability map. -/
theorem discover_device_body_ok (self : DeviceDiscovery) (env : Env)
    (ip_address : String) (t : List String) (r : DeviceInfo)
    (h : self.discover_device_body env ip_address = (t, .ok r)) :
    ∃ credentials, self.credentials_manager ip_address = .ok credentials ∧
      r.capabilities = (self._discover_capabilities env ip_address credentials).2 := by
  unfold DeviceDiscovery.discover_device_body at h
  cases hcm : self.credentials_manager ip_address with
  | error e =>
    rw [hcm] at h
    simp at h
  | ok credentials =>
    rw [hcm] at h
    refine ⟨credentials, rfl, ?_⟩
    have h2 := congrArg Prod.snd h
    simp only at h2
    repeat' split at h2
    all_goals cases h2
    rfl

/-! ### Claim theorems -/

/-- C1: `_discover_capabilities` merges exactly by `{}` updated with the
swagger map, then the parameter map, then the probe map (`capMerge`); for any
three strategy-produced maps (Python dicts, so with pairwise distinct keys)
the merged map, key by key, is the swagger map overwritten by the parameter
map overwritten by the probe map — last writer wins — and a key absent from
all three maps is absent from the result (no implicit `false`). -/
theorem capability_merge_last_writer_wins :
    (∀ (self : DeviceDiscovery) (env : Env) (ip_address : String)
        (credentials : Credentials),
      (self._discover_capabilities env ip_address credentials).2 =
        capMerge (self._discover_via_swagger env ip_address credentials).2
          (self._discover_via_parameters env ip_address credentials).2
          (self._discover_via_probing env ip_address credentials).2) ∧
    (∀ sw pm pr : PyDict, nodupKeys sw → nodupKeys pm → nodupKeys pr →
      (∀ k : String, dictLookup (capMerge sw pm pr) k =
        override (dictLookup pr k) (override (dictLookup pm k) (dictLookup sw k))) ∧
      (∀ k : String, dictLookup sw k = none → dictLookup pm k = none →
        dictLookup pr k = none → dictLookup (capMerge sw pm pr) k = none)) := by
  constructor
  · intro self env ip_address credentials
    rfl
  · intro sw pm pr hsw hpm hpr
    constructor
    · intro k
      unfold capMerge
      rw [dictUpdate_dictLookup pr hpr, dictUpdate_dictLookup pm hpm,
          dictUpdate_dictLookup sw hsw]
      have hnone : override (dictLookup sw k) (dictLookup [] k) = dictLookup sw k := by
        cases h : dictLookup sw k <;> rfl
      rw [hnone]
    · intro k h1 h2 h3
      unfold capMerge
      rw [dictUpdate_dictLookup_none pr _ _ h3, dictUpdate_dictLookup_none pm _ _ h2,
          dictUpdate_dictLookup_none sw _ _ h1]
      rfl

/-- Witness for C1 at concrete maps with a colliding key. -/
theorem capability_merge_last_writer_wins_witness :
    dictLookup (capMerge [("a", Json.bool true)]
      [("a", Json.bool false), ("b", Json.num 1)] [("b", Json.str "x")]) "a" =
      override (dictLookup [("b", Json.str "x")] "a")
        (override (dictLookup [("a", Json.bool false), ("b", Json.num 1)] "a")
          (dictLookup [("a", Json.bool true)] "a")) :=
  (capability_merge_last_writer_wins.2 [("a", Json.bool true)]
      [("a", Json.bool false), ("b", Json.num 1)] [("b", Json.str "x")]
      (by decide) (by decide) (by decide)).1 "a"

/-- C8: the `discovered_devices` map is initialized empty by `__init__` and,
since `discover_device` never assigns to it, it is still empty after any
sequence of `discover_device` calls, whatever their outcomes. -/
theorem discovered_devices_never_written (env : Env)
    (cm : String → Except PyErr Credentials) (ips : List String) :
    (runCalls env (DeviceDiscovery.init cm) ips).discovered_devices = [] := by
  have hstate : ∀ (st : DeviceDiscovery) (ip : String),
      (st.discover_device env ip).1 = st := by
    intro st ip
    unfold DeviceDiscovery.discover_device
    split <;> rfl
  have hrun : ∀ (l : List String) (st : DeviceDiscovery), runCalls env st l = st := by
    intro l
    induction l with
    | nil => intro st; rfl
    | cons ip rest ih => intro st; rw [runCalls, hstate st ip, ih]
  rw [hrun]
  rfl

/-- C9: because `_discover_via_parameters` and `_discover_via_probing` are
stubs returning `{}`, the merged capability map equals the swagger probe's
map alone; consequently the `capabilities` field of every `some` result of
`discover_device` is exactly the swagger probe's output (for the credentials
the lookup returned). -/
theorem capabilities_exactly_swagger (self : DeviceDiscovery) (env : Env)
    (ip_address : String) :
    (∀ credentials : Credentials,
      (self._discover_capabilities env ip_address credentials).2 =
        (self._discover_via_swagger env ip_address credentials).2) ∧
    (∀ r : DeviceInfo, (self.discover_device env ip_address).2.2 = some r →
      ∃ credentials : Credentials,
        self.credentials_manager ip_address = .ok credentials ∧
        r.capabilities = (self._discover_via_swagger env ip_address credentials).2) := by
  have hcaps : ∀ credentials : Credentials,
      (self._discover_capabilities env ip_address credentials).2 =
        (self._discover_via_swagger env ip_address credentials).2 := by
    intro credentials
    show dictUpdate [] (self._discover_via_swagger env ip_address credentials).2 = _
    exact dictUpdate_nil_left _
      (discover_via_swagger_nodupKeys self env ip_address credentials)
  refine ⟨hcaps, ?_⟩
  intro r hr
  unfold DeviceDiscovery.discover_device at hr
  split at hr
  · rename_i t r' hbody
    simp only at hr
    cases hr
    obtain ⟨credentials, hcm, hcap⟩ :=
      discover_device_body_ok self env ip_address t r hbody
    exact ⟨credentials, hcm, hcap.trans (hcaps credentials)⟩
  · simp at hr

/-- C9 needs concrete instances: a credentials manager that always succeeds. -/
def cmOk : String → Except PyErr Credentials :=
  fun _ => .ok { username := "root", password := "pass" }

/-- A discovery object whose credentials lookup succeeds. -/
def ddOk : DeviceDiscovery := DeviceDiscovery.init cmOk

/-- A credentials manager whose lookup always raises. -/
def cmFail : String → Except PyErr Credentials :=
  fun _ => .error (.other "CredentialsUnavailable")

/-- A discovery object whose credentials lookup raises. -/
def ddFail : DeviceDiscovery := DeviceDiscovery.init cmFail

/-- A network where every request times out. -/
def envDown : Env :=
  { http := fun _ _ _ _ => .error (.netError "timeout"), now := "T0" }

/-- A network answering every request with 200 and a small JSON object. -/
def env200 : Env :=
  { http := fun _ _ _ _ =>
      .ok { status := 200, body := .ok (Json.obj [("model", Json.str "M1")]) },
    now := "T0" }

/-- A network answering every request with a 404 whose body is not JSON. -/
def env404 : Env :=
  { http := fun _ _ _ _ => .ok { status := 404, body := .error (.other "not json") },
    now := "T0" }

/-- Concrete credentials for witnesses. -/
def cred0 : Credentials := { username := "root", password := "pass" }

/-- The record produced by `discover_device` when every HTTP call fails. -/
def rDown : DeviceInfo :=
  { ip_address := "10.0.0.5", model := Json.str "Unknown",
    firmware_version := Json.str "Unknown", hardware_id := Json.str "Unknown",
    capabilities := [], last_updated := "T0" }

/-- Witness for C9: a concrete successful call whose record's capabilities
are the swagger probe's output. -/
theorem capabilities_exactly_swagger_witness :
    ∃ credentials : Credentials,
      ddOk.credentials_manager "10.0.0.5" = .ok credentials ∧
      rDown.capabilities = (ddOk._discover_via_swagger envDown "10.0.0.5" credentials).2 :=
  (capabilities_exactly_swagger ddOk envDown "10.0.0.5").2 rDown rfl

/-- Helper: a raised exception in the `try` body makes `discover_device`
return `none`. -/
theorem discover_device_none_of_body_error (self : DeviceDiscovery) (env : Env)
    (ip_address : String) (e : PyErr)
    (h : (self.discover_device_body env ip_address).2 = .error e) :
    (self.discover_device env ip_address).2.2 = none := by
  unfold DeviceDiscovery.discover_device
  split
  · rename_i t r hbody
    rw [hbody] at h
    simp at h
  · rfl

/-- Helper: a 200 basic-info response with a parseable JSON body is returned
verbatim by the fetcher. -/
theorem get_basic_device_info_200 (self : DeviceDiscovery) (env : Env)
    (ip_address : String) (credentials : Credentials) (j : Json)
    (hh : env.http (basicdeviceinfoUrl ip_address) credentials.username
        credentials.password 10 = .ok { status := 200, body := .ok j }) :
    (self._get_basic_device_info env ip_address credentials).2 = j := by
  simp only [DeviceDiscovery._get_basic_device_info]
  rw [hh]
  rfl

/-- C4: whenever the body of the discovery sequence (credentials lookup,
basic-info fetch, capability discovery, record assembly) raises, the
orchestrator's `except` boundary turns the call into `none`; by construction
the exception never propagates (the total return type carries no error). -/
theorem discover_device_none_on_exception (self : DeviceDiscovery) (env : Env)
    (ip_address : String) (e : PyErr)
    (h : (self.discover_device_body env ip_address).2 = .error e) :
    (self.discover_device env ip_address).2.2 = none :=
  discover_device_none_of_body_error self env ip_address e h

/-- Witness for C4: a failing credentials lookup raises, and the call
returns `none`. -/
theorem discover_device_none_on_exception_witness :
    (ddFail.discover_device envDown "10.0.0.5").2.2 = none :=
  discover_device_none_on_exception ddFail envDown "10.0.0.5"
    (.other "CredentialsUnavailable") rfl

/-- C5: when the credentials lookup raises, `discover_device` returns `none`
and the list of requested URLs is empty — no HTTP call is performed. -/
theorem discover_device_zero_http_on_cred_failure (self : DeviceDiscovery)
    (env : Env) (ip_address : String) (e : PyErr)
    (h : self.credentials_manager ip_address = .error e) :
    (self.discover_device env ip_address).2 = ([], none) := by
  unfold DeviceDiscovery.discover_device DeviceDiscovery.discover_device_body
  rw [h]

/-- Witness for C5 at a concrete failing manager. -/
theorem discover_device_zero_http_on_cred_failure_witness :
    (ddFail.discover_device env200 "10.0.0.5").2 = ([], none) :=
  discover_device_zero_http_on_cred_failure ddFail env200 "10.0.0.5"
    (.other "CredentialsUnavailable") rfl

/-- C6: the basic-info fetcher never raises (its return type is a plain
value); on HTTP 200 with a parseable body it returns the parsed JSON body, on
any non-200 status it returns the fallback fetcher's result, and on a raised
network error or timeout it returns the empty mapping. -/
theorem get_basic_device_info_contract (self : DeviceDiscovery) (env : Env)
    (ip_address : String) (credentials : Credentials) :
    (∀ (response : HttpResponse) (j : Json),
      env.http (basicdeviceinfoUrl ip_address) credentials.username
          credentials.password 10 = .ok response →
      response.status = 200 → response.body = .ok j →
      (self._get_basic_device_info env ip_address credentials).2 = j) ∧
    (∀ response : HttpResponse,
      env.http (basicdeviceinfoUrl ip_address) credentials.username
          credentials.password 10 = .ok response →
      response.status ≠ 200 →
      (self._get_basic_device_info env ip_address credentials).2 =
        (self._get_device_info_fallback env ip_address credentials).2) ∧
    (∀ e : PyErr,
      env.http (basicdeviceinfoUrl ip_address) credentials.username
          credentials.password 10 = .error e →
      (self._get_basic_device_info env ip_address credentials).2 = Json.obj []) := by
  refine ⟨?_, ?_, ?_⟩
  · intro response j hh hs hb
    simp only [DeviceDiscovery._get_basic_device_info]
    rw [hh]
    simp [hs, hb]
  · intro response hh hs
    simp only [DeviceDiscovery._get_basic_device_info]
    rw [hh]
    simp [hs]
  · intro e hh
    simp only [DeviceDiscovery._get_basic_device_info]
    rw [hh]

/-- Witness for C6: a 200 response's parsed body is returned verbatim. -/
theorem get_basic_device_info_contract_witness :
    (ddOk._get_basic_device_info env200 "10.0.0.5" cred0).2 =
      Json.obj [("model", Json.str "M1")] :=
  (get_basic_device_info_contract ddOk env200 "10.0.0.5" cred0).1
    { status := 200, body := .ok (Json.obj [("model", Json.str "M1")]) }
    (Json.obj [("model", Json.str "M1")]) rfl rfl rfl

/-- C7: the swagger probe never raises (its return type is a plain value)
and returns the empty map on any non-200 status, on a raised network
error/timeout, on an unparseable body, and on a document on which the parser
raises. -/
theorem discover_via_swagger_contract (self : DeviceDiscovery) (env : Env)
    (ip_address : String) (credentials : Credentials) :
    (∀ response : HttpResponse,
      env.http (openapiUrl ip_address) credentials.username
          credentials.password 10 = .ok response →
      response.status ≠ 200 →
      (self._discover_via_swagger env ip_address credentials).2 = []) ∧
    (∀ e : PyErr,
      env.http (openapiUrl ip_address) credentials.username
          credentials.password 10 = .error e →
      (self._discover_via_swagger env ip_address credentials).2 = []) ∧
    (∀ (response : HttpResponse) (e : PyErr),
      env.http (openapiUrl ip_address) credentials.username
          credentials.password 10 = .ok response →
      response.body = .error e →
      (self._discover_via_swagger env ip_address credentials).2 = []) ∧
    (∀ (response : HttpResponse) (openapi_spec : Json) (e : PyErr),
      env.http (openapiUrl ip_address) credentials.username
          credentials.password 10 = .ok response →
      response.body = .ok openapi_spec →
      self._parse_swagger_capabilities openapi_spec = .error e →
      (self._discover_via_swagger env ip_address credentials).2 = []) := by
  refine ⟨?_, ?_, ?_, ?_⟩
  · intro response hh hs
    simp only [DeviceDiscovery._discover_via_swagger]
    rw [hh]
    simp [hs]
  · intro e hh
    simp only [DeviceDiscovery._discover_via_swagger]
    rw [hh]
  · intro response e hh hb
    simp only [DeviceDiscovery._discover_via_swagger]
    rw [hh]
    by_cases hs : response.status = 200
    · simp [hs, hb]
    · simp [hs]
  · intro response openapi_spec e hh hb hp
    simp only [DeviceDiscovery._discover_via_swagger]
    rw [hh]
    by_cases hs : response.status = 200
    · simp [hs, hb, hp]
    · simp [hs]

/-- Witness for C7: a 404 yields the empty map. -/
theorem discover_via_swagger_contract_witness :
    (ddOk._discover_via_swagger env404 "10.0.0.5" cred0).2 = [] :=
  (discover_via_swagger_contract ddOk env404 "10.0.0.5" cred0).1
    { status := 404, body := .error (.other "not json") } rfl (by decide)

/-- When the `try` body succeeds, `discover_device` returns its record. -/
theorem discover_device_some_of_body_ok (self : DeviceDiscovery) (env : Env)
    (ip_address : String) (r : DeviceInfo)
    (h : (self.discover_device_body env ip_address).2 = .ok r) :
    (self.discover_device env ip_address).2.2 = some r := by
  unfold DeviceDiscovery.discover_device
  split
  · rename_i t r' hb
    rw [hb] at h
    simp only [Except.ok.injEq] at h
    cases h
    rfl
  · rename_i t e hb
    rw [hb] at h
    simp at h

/-- C2: with a successful credentials lookup and an HTTP 200 basic-info
response whose JSON body is a mapping with keys among
`model`/`firmware_version`/`hardware_id`, `discover_device` returns a record
whose corresponding fields hold the present values verbatim and the string
"Unknown" for each absent key. -/
theorem discover_device_fields (self : DeviceDiscovery) (env : Env)
    (ip_address : String) (credentials : Credentials) (info : PyDict)
    (hsub : ∀ kv ∈ info,
      kv.1 = "model" ∨ kv.1 = "firmware_version" ∨ kv.1 = "hardware_id")
    (hcm : self.credentials_manager ip_address = .ok credentials)
    (hh : env.http (basicdeviceinfoUrl ip_address) credentials.username
        credentials.password 10 = .ok { status := 200, body := .ok (Json.obj info) }) :
    ∃ r : DeviceInfo, (self.discover_device env ip_address).2.2 = some r ∧
      r.model = (dictLookup info "model").getD (Json.str "Unknown") ∧
      r.firmware_version =
        (dictLookup info "firmware_version").getD (Json.str "Unknown") ∧
      r.hardware_id = (dictLookup info "hardware_id").getD (Json.str "Unknown") := by
  have hinfo : (self._get_basic_device_info env ip_address credentials).2 =
      Json.obj info :=
    get_basic_device_info_200 self env ip_address credentials (Json.obj info) hh
  have hbody : (self.discover_device_body env ip_address).2 =
      .ok { ip_address := ip_address,
            model := (dictLookup info "model").getD (Json.str "Unknown"),
            firmware_version :=
              (dictLookup info "firmware_version").getD (Json.str "Unknown"),
            hardware_id := (dictLookup info "hardware_id").getD (Json.str "Unknown"),
            capabilities := (self._discover_capabilities env ip_address credentials).2,
            last_updated := env.now } := by
    unfold DeviceDiscovery.discover_device_body
    rw [hcm]
    dsimp only
    rw [hinfo]
    simp [pyGet]
  exact ⟨_, discover_device_some_of_body_ok self env ip_address _ hbody, rfl, rfl, rfl⟩

/-- Witness for C2: body `{"model": "M1"}` yields `model = "M1"` and
"Unknown" for the two absent fields. -/
theorem discover_device_fields_witness :
    ∃ r : DeviceInfo, (ddOk.discover_device env200 "10.0.0.5").2.2 = some r ∧
      r.model = (dictLookup [("model", Json.str "M1")] "model").getD
        (Json.str "Unknown") ∧
      r.firmware_version =
        (dictLookup [("model", Json.str "M1")] "firmware_version").getD
          (Json.str "Unknown") ∧
      r.hardware_id = (dictLookup [("model", Json.str "M1")] "hardware_id").getD
        (Json.str "Unknown") :=
  discover_device_fields ddOk env200 "10.0.0.5" cred0 [("model", Json.str "M1")]
    (by decide) rfl rfl

/-- C10: an HTTP 200 basic-info response whose JSON body is not a mapping is
returned as-is by the fetcher; the `.get` field lookups during record
assembly then raise `AttributeError`, and the orchestrator boundary converts
the whole call to `none` (no degraded "Unknown" record). -/
theorem discover_device_none_on_non_mapping (self : DeviceDiscovery) (env : Env)
    (ip_address : String) (credentials : Credentials) (j : Json)
    (hcm : self.credentials_manager ip_address = .ok credentials)
    (hh : env.http (basicdeviceinfoUrl ip_address) credentials.username
        credentials.password 10 = .ok { status := 200, body := .ok j })
    (hj : j.isObj = false) :
    (self.discover_device env ip_address).2.2 = none := by
  have hinfo : (self._get_basic_device_info env ip_address credentials).2 = j :=
    get_basic_device_info_200 self env ip_address credentials j hh
  have hget : pyGet j "model" (Json.str "Unknown") = .error .attributeError := by
    cases j <;> simp [pyGet, Json.isObj] at hj ⊢
  have hbody : (self.discover_device_body env ip_address).2 =
      .error .attributeError := by
    unfold DeviceDiscovery.discover_device_body
    rw [hcm]
    dsimp only
    rw [hinfo, hget]
  exact discover_device_none_of_body_error self env ip_address _ hbody

/-- A network answering 200 with a JSON array body. -/
def envArr : Env :=
  { http := fun _ _ _ _ => .ok { status := 200, body := .ok (Json.arr []) },
    now := "T0" }

/-- Witness for C10: a 200 response whose body is `[]`. -/
theorem discover_device_none_on_non_mapping_witness :
    (ddOk.discover_device envArr "10.0.0.5").2.2 = none :=
  discover_device_none_on_non_mapping ddOk envArr "10.0.0.5" cred0 (Json.arr [])
    rfl rfl rfl

/-- C3: for every OpenAPI-style document (a mapping whose `paths` entry, if
present, is a mapping, and whose `components.schemas` entry, if present, is a
mapping), the parser succeeds and returns exactly the map with
`analytics_api`/`motion_detection`/`audio_api` mapped to `true` iff some path
key contains (case-sensitively) "analytics"/"motion"/"audio",
`analytics_schemas` mapped to `true` iff some schema name, lower-cased,
contains "analytics", and no other key present — in particular no key is ever
mapped to `false`, and a category with no match leaves its key absent. -/
theorem parse_swagger_characterization (self : DeviceDiscovery)
    (kvs pathsKvs schemaKvs : PyDict)
    (hp : dictLookup kvs "paths" = some (Json.obj pathsKvs) ∨
          (dictLookup kvs "paths" = none ∧ pathsKvs = []))
    (hc : (∃ ckvs : PyDict, dictLookup kvs "components" = some (Json.obj ckvs) ∧
            (dictLookup ckvs "schemas" = some (Json.obj schemaKvs) ∨
             (dictLookup ckvs "schemas" = none ∧ schemaKvs = []))) ∨
          (dictLookup kvs "components" = none ∧ schemaKvs = [])) :
    ∃ caps : PyDict,
      self._parse_swagger_capabilities (Json.obj kvs) = .ok caps ∧
      dictLookup caps "analytics_api" =
        (if pathsKvs.any (fun pv => strContains pv.1 "analytics")
         then some (Json.bool true) else none) ∧
      dictLookup caps "motion_detection" =
        (if pathsKvs.any (fun pv => strContains pv.1 "motion")
         then some (Json.bool true) else none) ∧
      dictLookup caps "audio_api" =
        (if pathsKvs.any (fun pv => strContains pv.1 "audio")
         then some (Json.bool true) else none) ∧
      dictLookup caps "analytics_schemas" =
        (if schemaKvs.any (fun sv => strContains sv.1.toLower "analytics")
         then some (Json.bool true) else none) ∧
      (∀ k : String, k ≠ "analytics_api" → k ≠ "motion_detection" →
        k ≠ "audio_api" → k ≠ "analytics_schemas" → dictLookup caps k = none) := by
  have hpaths : parsePathsSection (Json.obj kvs) = .ok (scanPaths [] pathsKvs) := by
    rcases hp with hp | ⟨hp, rfl⟩
    · exact parsePathsSection_obj_some kvs pathsKvs hp
    · rw [parsePathsSection_obj_none kvs hp]; rfl
  have hschemas : parseSchemasSection (Json.obj kvs) (scanPaths [] pathsKvs) =
      .ok (scanSchemas (scanPaths [] pathsKvs) schemaKvs) := by
    rcases hc with ⟨ckvs, hck, hs⟩ | ⟨hck, rfl⟩
    · rcases hs with hs | ⟨hs, rfl⟩
      · exact parseSchemasSection_obj_some kvs ckvs schemaKvs _ hck hs
      · rw [parseSchemasSection_obj_none_schemas kvs ckvs _ hck hs]; rfl
    · rw [parseSchemasSection_obj_none kvs _ hck]; rfl
  refine ⟨scanSchemas (scanPaths [] pathsKvs) schemaKvs, ?_, ?_, ?_, ?_, ?_, ?_⟩
  · unfold DeviceDiscovery._parse_swagger_capabilities
    rw [hpaths]
    exact hschemas
  · rw [scanSchemas_lookup_other schemaKvs "analytics_api" (by decide)
        (scanPaths [] pathsKvs),
        scanPaths_lookup_analytics pathsKvs []]
    rfl
  · rw [scanSchemas_lookup_other schemaKvs "motion_detection" (by decide)
        (scanPaths [] pathsKvs),
        scanPaths_lookup_motion pathsKvs []]
    rfl
  · rw [scanSchemas_lookup_other schemaKvs "audio_api" (by decide)
        (scanPaths [] pathsKvs),
        scanPaths_lookup_audio pathsKvs []]
    rfl
  · rw [scanSchemas_lookup_analytics schemaKvs (scanPaths [] pathsKvs),
        scanPaths_lookup_other pathsKvs "analytics_schemas" (by decide) (by decide)
          (by decide) []]
    rfl
  · intro k h1 h2 h3 h4
    rw [scanSchemas_lookup_other schemaKvs k h4 (scanPaths [] pathsKvs),
        scanPaths_lookup_other pathsKvs k h1 h2 h3 []]
    rfl

/-- Path table of the concrete witness document. -/
def specPaths : PyDict :=
  [("/analytics/x", Json.obj []), ("/motion/y", Json.obj [])]

/-- Schema table of the concrete witness document. -/
def specSchemas : PyDict := [("AnalyticsConfig", Json.obj [])]

/-- The concrete witness OpenAPI-style document. -/
def specDoc : PyDict :=
  [("paths", Json.obj specPaths),
   ("components", Json.obj [("schemas", Json.obj specSchemas)])]

/-- Witness for C3 at the concrete document: `analytics_api`,
`motion_detection` and `analytics_schemas` are set, `audio_api` is absent,
and no other key appears. -/
theorem parse_swagger_characterization_witness :
    ∃ caps : PyDict,
      ddOk._parse_swagger_capabilities (Json.obj specDoc) = .ok caps ∧
      dictLookup caps "analytics_api" =
        (if specPaths.any (fun pv => strContains pv.1 "analytics")
         then some (Json.bool true) else none) ∧
      dictLookup caps "motion_detection" =
        (if specPaths.any (fun pv => strContains pv.1 "motion")
         then some (Json.bool true) else none) ∧
      dictLookup caps "audio_api" =
        (if specPaths.any (fun pv => strContains pv.1 "audio")
         then some (Json.bool true) else none) ∧
      dictLookup caps "analytics_schemas" =
        (if specSchemas.any (fun sv => strContains sv.1.toLower "analytics")
         then some (Json.bool true) else none) ∧
      (∀ k : String, k ≠ "analytics_api" → k ≠ "motion_detection" →
        k ≠ "audio_api" → k ≠ "analytics_schemas" → dictLookup caps k = none) :=
  parse_swagger_characterization ddOk specDoc specPaths specSchemas
    (Or.inl rfl)
    (Or.inl ⟨[("schemas", Json.obj specSchemas)], rfl, Or.inl rfl⟩)
